import Mathlib

/-!
Verification of the semantiva-chain workflow explainer against its source.

The embedding models the Python modules
`semantiva_chain/core/component_metadata_extractor.py`,
`semantiva_chain/core/workflow_explainer.py` and
`semantiva_chain/llm/llm_factory.py` as pure Lean functions.  Python
dictionaries are association lists with distinct keys, Python values are the
inductive `PyVal`, and the external collaborators (the component registry
`ComponentLoader.get_class` and the text-completion service) are function
parameters.
-/

/-- Model of a Python value as it flows through the explainer: step
configurations, metadata records and parameter values.  Only the shapes the
source manipulates are needed. -/
inductive PyVal where
  | pyNone : PyVal
  | pyBool : Bool → PyVal
  | pyInt : Int → PyVal
  | pyStr : String → PyVal
  | pyList : List PyVal → PyVal
  | pyDict : List (String × PyVal) → PyVal

/-- A Python dictionary with string keys: an association list.  Keys are
assumed distinct, as they are in an actual `dict`. -/
abbrev PyDict := List (String × PyVal)

mutual

/-- Python `repr` of a value, as used by `str()` on containers and by
f-string interpolation of non-string values (`pyReprList` and `pyReprKVs`
are the element-wise repr of list elements and dict entries).  String
escaping inside `repr` is not modelled (no witness uses quotes inside
strings). -/
def pyRepr : PyVal → String
  | PyVal.pyNone => "None"
  | PyVal.pyBool true => "True"
  | PyVal.pyBool false => "False"
  | PyVal.pyInt n => toString n
  | PyVal.pyStr s => "\x27" ++ s ++ "\x27"
  | PyVal.pyList xs => "[" ++ String.intercalate ", " (pyReprList xs) ++ "]"
  | PyVal.pyDict kvs =>
      "\x7b" ++ String.intercalate ", " (pyReprKVs kvs) ++ "\x7d"

def pyReprList : List PyVal → List String
  | [] => []
  | v :: vs => pyRepr v :: pyReprList vs

def pyReprKVs : List (String × PyVal) → List String
  | [] => []
  | (k, v) :: kvs => ("\x27" ++ k ++ "\x27: " ++ pyRepr v) :: pyReprKVs kvs

end

/-- Python `str()` of a value: identical to `repr` except on strings. -/
def pyStrOf : PyVal → String
  | PyVal.pyStr s => s
  | v => pyRepr v

/-- Lookup in a Python dict (`d[k]` when present, `none` when the key is
absent).  With distinct keys, first match is the entry. -/
def lookupVal : PyDict → String → Option PyVal
  | [], _ => none
  | (k, v) :: rest, key => if k = key then some v else lookupVal rest key

/-- Python `d.get(key, default)`. -/
def pyGetD (d : PyDict) (key : String) (dflt : PyVal) : PyVal :=
  (lookupVal d key).getD dflt

/-- Python `d.get(key)` (default `None`). -/
def pyGet (d : PyDict) (key : String) : PyVal :=
  pyGetD d key PyVal.pyNone

/-- Python `key in d`. -/
def hasKey (d : PyDict) (key : String) : Bool :=
  (lookupVal d key).isSome

/-- Python truthiness of a value (as in `if not processor_name`). -/
def pyTruthy : PyVal → Bool
  | PyVal.pyNone => false
  | PyVal.pyBool b => b
  | PyVal.pyInt n => decide (n ≠ 0)
  | PyVal.pyStr s => decide (s ≠ "")
  | PyVal.pyList xs => !xs.isEmpty
  | PyVal.pyDict kvs => !kvs.isEmpty

/-- Iterating a Python value (`for x in v`): lists yield their elements,
dicts their keys, strings their one-character substrings.  Iterating
`None`, a bool or an int raises `TypeError` in Python; the extractor only
ever supplies lists here and no claim exercises that path, so those cases
are modelled as the empty iteration. -/
def iterList : PyVal → List PyVal
  | PyVal.pyList xs => xs
  | PyVal.pyDict kvs => kvs.map fun kv => PyVal.pyStr kv.1
  | PyVal.pyStr s => s.toList.map fun ch => PyVal.pyStr (String.singleton ch)
  | _ => []

/-- Python `d[k]` on a value already known to be a dict holding `k` (the
renderer guards every such indexing with `isinstance(..., dict)` and
membership tests); other cases are unreachable behind those guards. -/
def dIndex : PyVal → String → PyVal
  | PyVal.pyDict kvs, key => pyGet kvs key
  | _, _ => PyVal.pyNone

/-- `None`-or-string, as produced by `inspect.getdoc`. -/
def optStrVal : Option String → PyVal
  | none => PyVal.pyNone
  | some s => PyVal.pyStr s

/-!
Model of `component_metadata_extractor.py`.  The host framework's classes
are external; a `PyClass` records exactly the introspection surface the
extractor reads from a resolved component class.
-/

/-- One parameter of a `_process_logic` signature: its name and the name of
its type annotation (`none` when the annotation is `inspect.Parameter.empty`). -/
structure ProcParam where
  name : String
  ann : Option String

/-- The introspection surface of a `_process_logic` callable: its declared
parameters in order and its documentation string. -/
structure ProcLogicSig where
  params : List ProcParam
  doc : Option String

/-- The introspection surface of a resolved component class, i.e. the
external `ComponentDescriptor`: `__module__`, the names along
`inspect.getmro`, the result type name of a present-and-callable
`input_data_type` / `output_data_type` factory (`none` when the attribute
is absent or not callable), the `_process_logic` signature (`none` when
`hasattr(cls, "_process_logic")` is false), and `inspect.getdoc(cls)`. -/
structure PyClass where
  modulePath : String
  mro : List String
  inputDataTypeName : Option String
  outputDataTypeName : Option String
  processLogic : Option ProcLogicSig
  doc : Option String

/-- `ComponentMetadataExtractor._get_class_hierarchy`: every base name along
the MRO except `"object"`. -/
def get_class_hierarchy (c : PyClass) : List String :=
  c.mro.filter fun b => b != "object"

/-- `ComponentMetadataExtractor._get_interfaces`: appends an `input` entry
when the `input_data_type` factory is present and callable, then an
`output` entry likewise. -/
def get_interfaces (c : PyClass) : List PyVal :=
  (match c.inputDataTypeName with
   | some n =>
       [PyVal.pyDict
         [("interface_type", PyVal.pyStr "input"), ("data_type", PyVal.pyStr n)]]
   | none => []) ++
  (match c.outputDataTypeName with
   | some n =>
       [PyVal.pyDict
         [("interface_type", PyVal.pyStr "output"), ("data_type", PyVal.pyStr n)]]
   | none => [])

/-- `ComponentMetadataExtractor._get_processing_logic`: an error record when
the class has no `_process_logic` attribute, otherwise the declared
parameters (excluding `self`; annotation name or `"Unknown"`) and the
callable's docstring. -/
def get_processing_logic (c : PyClass) : PyDict :=
  match c.processLogic with
  | none => [("error", PyVal.pyStr "Processing logic not defined")]
  | some sig =>
      [("parameters",
        PyVal.pyList
          ((sig.params.filter fun p => p.name != "self").map fun p =>
            PyVal.pyDict
              [("name", PyVal.pyStr p.name),
               ("type", PyVal.pyStr (p.ann.getD "Unknown"))])),
       ("description", optStrVal sig.doc)]

/-- `ComponentMetadataExtractor.get_metadata`.  `registry` models the
external `ComponentLoader.get_class` lookup (`None` when the name is
unknown; a class object is always truthy, so `if not component_class`
holds exactly on `None`). -/
def get_metadata (registry : String → Option PyClass)
    (component_name : String) : PyDict :=
  match registry component_name with
  | none =>
      [("error",
        PyVal.pyStr ("Component \x27" ++ component_name ++ "\x27 not found."))]
  | some c =>
      [("component_name", PyVal.pyStr component_name),
       ("module_path", PyVal.pyStr c.modulePath),
       ("class_hierarchy", PyVal.pyList ((get_class_hierarchy c).map PyVal.pyStr)),
       ("interfaces", PyVal.pyList (get_interfaces c)),
       ("processing_logic", PyVal.pyDict (get_processing_logic c)),
       ("docstring", optStrVal c.doc)]

/-!
Model of `llm/llm_factory.py`.  The constructed providers are represented
by which class was instantiated and the arguments the factory passed; both
classes subclass `LLMInterface` in the source.
-/

/-- The instance returned by `LLMFactory.get_llm`: either `OpenAILLM` or
`MockLLM`, holding the API key and resolved model name. -/
inductive LLMInstance where
  | openaiLLM : Option String → String → LLMInstance
  | mockLLM : Option String → String → LLMInstance

/-- Python `s.lower()` (ASCII case folding suffices for the provider names
involved). -/
def pyLower (s : String) : String :=
  String.mk (s.data.map Char.toLower)

/-- Python `model or default` for an optional string: the default replaces
both `None` and the falsy empty string. -/
def pyOrStr (v : Option String) (dflt : String) : String :=
  match v with
  | some s => if s = "" then dflt else s
  | none => dflt

/-- `LLMFactory.get_llm`: lowercases the provider name, returns an
`OpenAILLM` for `"openai"`, a `MockLLM` for `"mock"`, and raises
`ValueError` (modelled as `Except.error`) otherwise. -/
def get_llm (provider : String) (api_key : Option String)
    (model : Option String) : Except String LLMInstance :=
  let p := pyLower provider
  if p = "openai" then
    Except.ok (LLMInstance.openaiLLM api_key (pyOrStr model "gpt-4o-mini"))
  else if p = "mock" then
    Except.ok (LLMInstance.mockLLM api_key (pyOrStr model "mock"))
  else
    Except.error
      ("Unsupported LLM provider: \x27" ++ p ++
        "\x27. Choose \x27openai\x27 or \x27mock\x27.")

/-!
Model of `workflow_explainer.py`.  `WorkflowExplainer._generate_prompt` is
decomposed into one Lean definition per sub-expression of the source
comprehensions, combined exactly as the source combines them.
-/

/-- The guard of the pipeline-structure comprehension:
`isinstance(node.get("parameters"), dict) or node.get("parameters") is None`
(an absent key also yields `None`). -/
def paramOk (node : PyDict) : Bool :=
  match pyGet node "parameters" with
  | PyVal.pyDict _ => true
  | PyVal.pyNone => true
  | _ => false

/-- `(node.get("parameters") or {}).items()` under the comprehension guard:
the value is a dict (possibly empty, which is falsy and replaced by `{}` —
the same items) or `None` (replaced by `{}`). -/
def paramItems (node : PyDict) : List (String × PyVal) :=
  match pyGet node "parameters" with
  | PyVal.pyDict kvs => kvs
  | _ => []

/-- The parameter lines `f"    - {key}: {value}"` of one step. -/
def paramLines (node : PyDict) : List String :=
  (paramItems node).map fun kv => "    - " ++ kv.1 ++ ": " ++ pyStrOf kv.2

/-- The part of a step's block after `"- Step <n>: "`: processor, context
keyword (default the string `"None"`), and the joined parameter lines. -/
def stepTail (node : PyDict) : String :=
  pyStrOf (pyGet node "processor") ++ "\n  Context Keyword: " ++
    pyStrOf (pyGetD node "context_keyword" (PyVal.pyStr "None")) ++
    "\n  Parameters:\n" ++ String.intercalate "\n" (paramLines node)

/-- One block of the pipeline-structure section, at 0-based `enumerate`
index `idx` (displayed as `idx + 1`). -/
def stepBlock (idx : Nat) (node : PyDict) : String :=
  "- Step " ++ toString (idx + 1) ++ ": " ++ stepTail node

/-- The steps that survive the comprehension's guard, each paired with its
`enumerate` index — `enumerate` runs before the filter, so surviving steps
keep their original indices. -/
def renderedSteps (nodes : List PyDict) : List (Nat × PyDict) :=
  nodes.enum.filter fun p => paramOk p.2

/-- The `pipeline_structure` string: the surviving blocks joined by
newlines. -/
def pipelineStructure (nodes : List PyDict) : String :=
  String.intercalate "\n" ((renderedSteps nodes).map fun p => stepBlock p.1 p.2)

/-- `comp.get('docstring', 'No description available.')` rendered by the
f-string: the fallback replaces an absent key only; a present `None`
renders as the string `"None"`. -/
def descriptionOf (comp : PyDict) : String :=
  pyStrOf (pyGetD comp "docstring" (PyVal.pyStr "No description available."))

/-- `comp.get('module_path', 'Unknown')` rendered by the f-string. -/
def moduleOf (comp : PyDict) : String :=
  pyStrOf (pyGetD comp "module_path" (PyVal.pyStr "Unknown"))

/-- `', '.join(map(str, comp.get('class_hierarchy', [])))`. -/
def hierarchyOf (comp : PyDict) : String :=
  String.intercalate ", "
    ((iterList (pyGetD comp "class_hierarchy" (PyVal.pyList []))).map pyStrOf)

/-- The guard on interface entries: a dict holding both
`"interface_type"` and `"data_type"`. -/
def ifaceEntryOk : PyVal → Bool
  | PyVal.pyDict kvs => hasKey kvs "interface_type" && hasKey kvs "data_type"
  | _ => false

/-- The interface lines `f"    - {iface['interface_type']}: {iface['data_type']}"`
of one record, malformed entries skipped. -/
def interfaceLines (comp : PyDict) : List String :=
  ((iterList (pyGetD comp "interfaces" (PyVal.pyList []))).filter ifaceEntryOk).map
    fun e => "    - " ++ pyStrOf (dIndex e "interface_type") ++ ": " ++
      pyStrOf (dIndex e "data_type")

/-- `comp.get("processing_logic", {}).get("parameters", [])`.  A present
non-dict `processing_logic` would raise `AttributeError` on the chained
`.get` in Python; the extractor always stores a dict there and no claim
reaches that case. -/
def processingParams (comp : PyDict) : PyVal :=
  match pyGetD comp "processing_logic" (PyVal.pyDict []) with
  | PyVal.pyDict kvs => pyGetD kvs "parameters" (PyVal.pyList [])
  | _ => PyVal.pyList []

/-- The guard on parameter entries: a dict holding both `"name"` and
`"type"`. -/
def paramEntryOk : PyVal → Bool
  | PyVal.pyDict kvs => hasKey kvs "name" && hasKey kvs "type"
  | _ => false

/-- The processing-logic lines `f"    - {param['name']}: {param['type']}"`
of one record, malformed entries skipped. -/
def processingLogicLines (comp : PyDict) : List String :=
  ((iterList (processingParams comp)).filter paramEntryOk).map
    fun p => "    - " ++ pyStrOf (dIndex p "name") ++ ": " ++
      pyStrOf (dIndex p "type")

/-- One block of the component-details section (`comp['component_name']` is
present on every record the orchestrator passes in; modelled through
`pyGet`). -/
def componentBlock (comp : PyDict) : String :=
  "- " ++ pyStrOf (pyGet comp "component_name") ++ ":\n  Description: " ++
    descriptionOf comp ++ "\n  Module: " ++ moduleOf comp ++
    "\n  Class Hierarchy: " ++ hierarchyOf comp ++ "\n  Interfaces:\n" ++
    String.intercalate "\n" (interfaceLines comp) ++
    "\n  Processing Logic:\n" ++
    String.intercalate "\n" (processingLogicLines comp)

/-- The `component_descriptions` string: one block per record, joined by
newlines. -/
def componentDescriptions (components : List PyDict) : String :=
  String.intercalate "\n" (components.map componentBlock)

/-- `WorkflowExplainer._generate_prompt`: the fixed instructional template
(whitespace reproduced byte for byte from the source f-string) wrapping the
two sections. -/
def generate_prompt (node_configurations : List PyDict)
    (components : List PyDict) : String :=
  "\n        You are an AI workflow assistant. Given the following pipeline configuration, \n        explain how it works in a clear and structured manner.\n\n        **Pipeline Configuration:**\n        " ++
    pipelineStructure node_configurations ++
    "\n\n        **Component Details:**\n        " ++
    componentDescriptions components ++
    "\n\n        Provide a detailed, structured, and human-readable explanation of the workflow.\n        "

/-- The step's processor value as the string handed to the registry lookup
(processor names are annotated `str` in the source). -/
def stepName (node : PyDict) : String :=
  pyStrOf (pyGet node "processor")

/-- The metadata-gathering loop of `WorkflowExplainer.explain`.  The first
component is the source behaviour: `Except.error` models the early
`return` of an error string, `Except.ok` the list `components` after the
loop.  The second component instruments the sequence of names passed to
`ComponentMetadataExtractor.get_metadata`, making the extraction calls
observable; the source performs no other effect per iteration. -/
def gather (registry : String → Option PyClass) :
    List PyDict → Except String (List PyDict) × List String
  | [] => (Except.ok [], [])
  | node :: rest =>
      let pname := pyGet node "processor"
      if pyTruthy pname then
        let name := pyStrOf pname
        let metadata := get_metadata registry name
        if hasKey metadata "error" then
          (Except.error ("Error: " ++ pyStrOf (pyGet metadata "error")), [name])
        else
          match gather registry rest with
          | (Except.ok comps, tr) => (Except.ok (metadata :: comps), name :: tr)
          | (Except.error e, tr) => (Except.error e, name :: tr)
      else
        (Except.error
          ("Error: Missing \x27processor\x27 key in node configuration: " ++
            pyRepr (PyVal.pyDict node)), [])

/-- `WorkflowExplainer.explain`: empty-configuration message, the gathering
loop's early error returns, else the composed prompt handed to the
text-completion service `llm` (external collaborator), whose response is
returned unmodified.  The diagnostic logging between gathering and
composing is observability only and not modelled. -/
def explain (registry : String → Option PyClass) (llm : String → String)
    (node_configurations : List PyDict) : String :=
  if node_configurations.isEmpty then
    "The provided workflow configuration is empty."
  else
    match (gather registry node_configurations).1 with
    | Except.error e => e
    | Except.ok components =>
        llm (generate_prompt node_configurations components)

/-- The sequence of component names `explain` hands to the extractor (empty
input short-circuits before the loop; `gather` on `[]` is empty too). -/
def explainTrace (registry : String → Option PyClass)
    (node_configurations : List PyDict) : List String :=
  (gather registry node_configurations).2

/-- A step the gathering loop passes without an early return: truthy
processor value and no `"error"` key in its extracted metadata. -/
def goodStep (registry : String → Option PyClass) (node : PyDict) : Prop :=
  pyTruthy (pyGet node "processor") = true ∧
    hasKey (get_metadata registry (stepName node)) "error" = false

/-!
Helper lemmas shared by the claim theorems.
-/

/-- `enumerate` distributes over append, shifting the start index. -/
lemma enumFrom_append_eq {α : Type} :
    ∀ (l₁ : List α) (l₂ : List α) (k : Nat),
      List.enumFrom k (l₁ ++ l₂) =
        List.enumFrom k l₁ ++ List.enumFrom (k + l₁.length) l₂ := by
  intro l₁
  induction l₁ with
  | nil => intro l₂ k; simp [List.enumFrom]
  | cons a as ih =>
      intro l₂ k
      have h : k + (as.length + 1) = (k + 1) + as.length := by omega
      simp only [List.cons_append, List.enumFrom, List.length_cons, h]
      exact congrArg (List.cons (k, a)) (ih l₂ (k + 1))

/-- A good step prepends its metadata and its name to the rest's gather. -/
lemma gather_cons_good (registry : String → Option PyClass) (node : PyDict)
    (rest : List PyDict) (h : goodStep registry node) :
    gather registry (node :: rest) =
      ((gather registry rest).1.map
          fun comps => get_metadata registry (stepName node) :: comps,
        stepName node :: (gather registry rest).2) := by
  obtain ⟨h1, h2⟩ := h
  rcases hg : gather registry rest with ⟨r, tr⟩
  unfold gather
  simp only [stepName] at h2 ⊢
  rw [h1]
  simp only [if_true]
  rw [h2]
  simp only [Bool.false_eq_true, if_false, hg]
  cases r <;> simp [Except.map]

/-- A prefix of good steps contributes its metadata and names in front. -/
lemma gather_append_good (registry : String → Option PyClass) :
    ∀ (pre rest : List PyDict), (∀ n ∈ pre, goodStep registry n) →
      gather registry (pre ++ rest) =
        ((gather registry rest).1.map
            fun comps =>
              (pre.map fun n => get_metadata registry (stepName n)) ++ comps,
          pre.map stepName ++ (gather registry rest).2) := by
  intro pre
  induction pre with
  | nil =>
      intro rest _
      rcases hg : gather registry rest with ⟨r, tr⟩
      cases r <;> simp [Except.map, hg]
  | cons n ns ih =>
      intro rest h
      have hn : goodStep registry n := h n (List.mem_cons_self n ns)
      have hns : ∀ m ∈ ns, goodStep registry m :=
        fun m hm => h m (List.mem_cons_of_mem n hm)
      rw [List.cons_append, gather_cons_good registry n (ns ++ rest) hn, ih rest hns]
      rcases hg : gather registry rest with ⟨r, tr⟩
      cases r <;> simp [Except.map]

/-- A list of good steps gathers to the full metadata list and trace. -/
lemma gather_all_good (registry : String → Option PyClass)
    (nodes : List PyDict) (h : ∀ n ∈ nodes, goodStep registry n) :
    gather registry nodes =
      (Except.ok (nodes.map fun n => get_metadata registry (stepName n)),
        nodes.map stepName) := by
  have := gather_append_good registry nodes [] h
  simpa [gather, Except.map] using this

/-- An `input` interface entry as the extractor builds it. -/
def inputEntry (n : String) : PyVal :=
  PyVal.pyDict [("interface_type", PyVal.pyStr "input"), ("data_type", PyVal.pyStr n)]

/-- An `output` interface entry as the extractor builds it. -/
def outputEntry (n : String) : PyVal :=
  PyVal.pyDict [("interface_type", PyVal.pyStr "output"), ("data_type", PyVal.pyStr n)]

/-- Claim C7: prompt composition is a pure deterministic function of the
step list and the metadata list — two calls of the composer on the same
inputs yield byte-identical prompt strings (the embedding of
`_generate_prompt` reads nothing but its two arguments). -/
theorem prompt_composition_deterministic :
    ∀ (node_configurations components : List PyDict),
      generate_prompt node_configurations components =
        generate_prompt node_configurations components :=
  fun _ _ => rfl

/-- Claim C6: the extracted interfaces list has an `input` entry iff the
class has a callable `input_data_type` factory, an `output` entry iff it
has a callable `output_data_type` factory, is empty when neither is
present, and places the `input` entry before the `output` entry when both
are present. -/
theorem interfaces_iff_factories :
    ∀ c : PyClass,
      ((∃ n, inputEntry n ∈ get_interfaces c) ↔ c.inputDataTypeName.isSome = true) ∧
      ((∃ n, outputEntry n ∈ get_interfaces c) ↔ c.outputDataTypeName.isSome = true) ∧
      (get_interfaces c = [] ↔ (c.inputDataTypeName = none ∧ c.outputDataTypeName = none)) ∧
      (∀ ni no, c.inputDataTypeName = some ni → c.outputDataTypeName = some no →
        get_interfaces c = [inputEntry ni, outputEntry no]) := by
  intro c
  rcases c with ⟨m, mro, i, o, pl, d⟩
  cases i <;> cases o <;>
    simp [get_interfaces, inputEntry, outputEntry]

/-- Claim C6 witness: a class with both factories yields the input entry
followed by the output entry. -/
theorem interfaces_iff_factories_witness :
    get_interfaces ⟨"m", ["X"], some "Image", some "Float", none, none⟩ =
      [inputEntry "Image", outputEntry "Float"] :=
  (interfaces_iff_factories ⟨"m", ["X"], some "Image", some "Float", none, none⟩).2.2.2
    "Image" "Float" rfl rfl

/-- Claim C3: a step with a missing (or falsy, hence empty) `processor`
makes `explain` return the error string built from the step's own repr, and
the extractor is consulted exactly for the steps before it — not for the
offending step nor any later one. -/
theorem missing_processor_short_circuits :
    ∀ (registry : String → Option PyClass) (llm : String → String)
      (pre : List PyDict) (node : PyDict) (post : List PyDict),
      (∀ n ∈ pre, goodStep registry n) →
      pyTruthy (pyGet node "processor") = false →
      explain registry llm (pre ++ node :: post) =
          "Error: Missing \x27processor\x27 key in node configuration: " ++
            pyRepr (PyVal.pyDict node) ∧
        explainTrace registry (pre ++ node :: post) = pre.map stepName := by
  intro registry llm pre node post hpre hbad
  have hnode : gather registry (node :: post) =
      (Except.error
        ("Error: Missing \x27processor\x27 key in node configuration: " ++
          pyRepr (PyVal.pyDict node)), []) := by
    unfold gather
    simp [hbad]
  have happ := gather_append_good registry pre (node :: post) hpre
  rw [hnode] at happ
  constructor
  · unfold explain
    rw [happ]
    simp [Except.map]
  · unfold explainTrace
    rw [happ]
    simp

/-- Claim C3 witness: a concrete two-step list whose first step lacks
`processor` yields the error string with the step's repr, and the registry
is never consulted. -/
theorem missing_processor_short_circuits_witness :
    explain (fun _ => none) id
        ([] ++ [("context_keyword", PyVal.pyStr "k")] ::
          [[("processor", PyVal.pyStr "P")]]) =
        "Error: Missing \x27processor\x27 key in node configuration: " ++
          pyRepr (PyVal.pyDict [("context_keyword", PyVal.pyStr "k")]) ∧
      explainTrace (fun _ => none)
        ([] ++ [("context_keyword", PyVal.pyStr "k")] ::
          [[("processor", PyVal.pyStr "P")]]) = [] :=
  missing_processor_short_circuits (fun _ => none) id []
    [("context_keyword", PyVal.pyStr "k")] [[("processor", PyVal.pyStr "P")]]
    (by simp) (by rfl)

/-- Claim C4 counterexample: for the unknown name `"Y"` the extractor's
error field is the string `"Component 'Y' not found."`, which is not the
claimed form `"<name> not found"` (i.e. `"Y not found"`). -/
theorem unknown_component_message_counterexample :
    get_metadata (fun _ => none) "Y" =
        [("error", PyVal.pyStr "Component \x27Y\x27 not found.")] ∧
      "Component \x27Y\x27 not found." ≠ "Y not found" :=
  ⟨rfl, by decide⟩

/-- Claim C4 (amended): an unknown component name yields the structured
record `[error: "Component '<name>' not found."]` — a value, not an
exception (the embedded extractor is a total function) — and a step whose
extraction returns it makes `explain` return
`"Error: Component '<name>' not found."`, consulting the extractor for no
later step. -/
theorem unknown_component_short_circuits :
    ∀ (registry : String → Option PyClass) (name : String),
      registry name = none → name ≠ "" →
      get_metadata registry name =
          [("error",
            PyVal.pyStr ("Component \x27" ++ name ++ "\x27 not found."))] ∧
        ∀ (llm : String → String) (pre post : List PyDict),
          (∀ n ∈ pre, goodStep registry n) →
          explain registry llm
              (pre ++ [("processor", PyVal.pyStr name)] :: post) =
              "Error: " ++ ("Component \x27" ++ name ++ "\x27 not found.") ∧
            explainTrace registry
              (pre ++ [("processor", PyVal.pyStr name)] :: post) =
              pre.map stepName ++ [name] := by
  intro registry name hnone hne
  have hmd : get_metadata registry name =
      [("error", PyVal.pyStr ("Component \x27" ++ name ++ "\x27 not found."))] := by
    simp [get_metadata, hnone]
  refine ⟨hmd, ?_⟩
  intro llm pre post hpre
  have htru : pyTruthy (pyGet [("processor", PyVal.pyStr name)] "processor") = true := by
    simp [pyGet, pyGetD, lookupVal, pyTruthy, hne]
  have hnode : gather registry ([("processor", PyVal.pyStr name)] :: post) =
      (Except.error ("Error: " ++ ("Component \x27" ++ name ++ "\x27 not found.")),
        [name]) := by
    unfold gather
    simp only [htru, if_true]
    have hname : pyStrOf (pyGet [("processor", PyVal.pyStr name)] "processor") = name := rfl
    rw [hname, hmd]
    rfl
  have happ := gather_append_good registry pre
    ([("processor", PyVal.pyStr name)] :: post) hpre
  rw [hnode] at happ
  constructor
  · unfold explain
    rw [happ]
    simp [Except.map]
  · unfold explainTrace
    rw [happ]

/-- Claim C4 witness: concrete one-step pipeline naming the unknown
component `"Y"`. -/
theorem unknown_component_short_circuits_witness :
    get_metadata (fun _ => none) "Y" =
        [("error", PyVal.pyStr ("Component \x27" ++ "Y" ++ "\x27 not found."))] ∧
      explain (fun _ => none) id ([] ++ [("processor", PyVal.pyStr "Y")] :: []) =
        "Error: " ++ ("Component \x27" ++ "Y" ++ "\x27 not found.") :=
  ⟨(unknown_component_short_circuits (fun _ => none) "Y" rfl (by decide)).1,
   ((unknown_component_short_circuits (fun _ => none) "Y" rfl (by decide)).2
      id [] [] (by simp)).1⟩

/-- Claim C10: a resolvable name yields a record with exactly the six keys
`component_name`, `module_path`, `class_hierarchy`, `interfaces`,
`processing_logic`, `docstring` in that order and no top-level `error`
key; consequently, when every step's processor is truthy and resolvable,
the orchestrator never short-circuits and hands the composed prompt to the
service — a nested processing-logic error can never trip the check. -/
theorem resolved_metadata_shape :
    ∀ (registry : String → Option PyClass),
      (∀ name c, registry name = some c →
        (get_metadata registry name).map Prod.fst =
            ["component_name", "module_path", "class_hierarchy", "interfaces",
             "processing_logic", "docstring"] ∧
          hasKey (get_metadata registry name) "error" = false) ∧
      (∀ (llm : String → String) (nodes : List PyDict), nodes ≠ [] →
        (∀ n ∈ nodes, pyTruthy (pyGet n "processor") = true ∧
            (registry (stepName n)).isSome = true) →
        explain registry llm nodes =
          llm (generate_prompt nodes
            (nodes.map fun n => get_metadata registry (stepName n)))) := by
  intro registry
  have hshape : ∀ name c, registry name = some c →
      (get_metadata registry name).map Prod.fst =
          ["component_name", "module_path", "class_hierarchy", "interfaces",
           "processing_logic", "docstring"] ∧
        hasKey (get_metadata registry name) "error" = false := by
    intro name c h
    constructor
    · simp [get_metadata, h]
    · simp only [get_metadata, h]
      rfl
  refine ⟨hshape, ?_⟩
  intro llm nodes hne hall
  have hgood : ∀ n ∈ nodes, goodStep registry n := by
    intro n hn
    obtain ⟨ht, hs⟩ := hall n hn
    rcases ho : registry (stepName n) with _ | c
    · rw [ho] at hs
      simp at hs
    · exact ⟨ht, (hshape (stepName n) c ho).2⟩
  have hg := gather_all_good registry nodes hgood
  unfold explain
  rw [hg]
  simp [List.isEmpty_iff, hne]

/-- Claim C10 witness: a registry resolving `"X"`, with a one-step
pipeline using it. -/
theorem resolved_metadata_shape_witness :
    (get_metadata
        (fun n => if n = "X" then
          some ⟨"mod.x", ["X", "Base", "object"], some "Image", none,
            some ⟨[⟨"self", none⟩, ⟨"threshold", some "float"⟩], some "pl"⟩,
            some "Does X."⟩
        else none) "X").map Prod.fst =
        ["component_name", "module_path", "class_hierarchy", "interfaces",
         "processing_logic", "docstring"] ∧
      explain
        (fun n => if n = "X" then
          some ⟨"mod.x", ["X", "Base", "object"], some "Image", none,
            some ⟨[⟨"self", none⟩, ⟨"threshold", some "float"⟩], some "pl"⟩,
            some "Does X."⟩
        else none) id [[("processor", PyVal.pyStr "X")]] =
        id (generate_prompt [[("processor", PyVal.pyStr "X")]]
          ([[("processor", PyVal.pyStr "X")]].map fun n =>
            get_metadata
              (fun n => if n = "X" then
                some ⟨"mod.x", ["X", "Base", "object"], some "Image", none,
                  some ⟨[⟨"self", none⟩, ⟨"threshold", some "float"⟩], some "pl"⟩,
                  some "Does X."⟩
              else none) (stepName n))) :=
  ⟨((resolved_metadata_shape _).1 "X" _ rfl).1,
   (resolved_metadata_shape _).2 id [[("processor", PyVal.pyStr "X")]]
      (by simp)
      (by
        intro n hn
        simp only [List.mem_singleton] at hn
        subst hn
        exact ⟨rfl, rfl⟩)⟩

/-- Claim C5: a class without `_process_logic` yields
`processing_logic = dict(error = "Processing logic not defined")`, the
composer's `Processing Logic:` sub-list for that record is empty, the
record has no top-level `error` key, and a pipeline using the component
still reaches the text-completion service. -/
theorem processing_logic_error_nonfatal :
    ∀ (registry : String → Option PyClass) (name : String) (c : PyClass),
      registry name = some c → c.processLogic = none → name ≠ "" →
      pyGet (get_metadata registry name) "processing_logic" =
          PyVal.pyDict [("error", PyVal.pyStr "Processing logic not defined")] ∧
        processingLogicLines (get_metadata registry name) = [] ∧
        hasKey (get_metadata registry name) "error" = false ∧
        ∀ llm : String → String,
          explain registry llm [[("processor", PyVal.pyStr name)]] =
            llm (generate_prompt [[("processor", PyVal.pyStr name)]]
              [get_metadata registry name]) := by
  intro registry name c hsome hpl hne
  refine ⟨?_, ?_, ?_, ?_⟩
  · simp only [get_metadata, hsome, get_processing_logic, hpl]
    rfl
  · simp only [processingLogicLines, processingParams, get_metadata, hsome,
      get_processing_logic, hpl]
    rfl
  · simp only [get_metadata, hsome]
    rfl
  · intro llm
    have hgood : ∀ n ∈ [[("processor", PyVal.pyStr name)]], goodStep registry n := by
      intro n hn
      simp only [List.mem_singleton] at hn
      subst hn
      constructor
      · simp [pyGet, pyGetD, lookupVal, pyTruthy, hne]
      · simp only [stepName]
        have : pyStrOf (pyGet [("processor", PyVal.pyStr name)] "processor") = name := rfl
        rw [this]
        simp only [get_metadata, hsome]
        rfl
    have hg := gather_all_good registry [[("processor", PyVal.pyStr name)]] hgood
    unfold explain
    rw [hg]
    simp
    rfl

/-- Claim C5 witness: a concrete component `"NoPL"` without
`_process_logic`. -/
theorem processing_logic_error_nonfatal_witness :
    pyGet
        (get_metadata
          (fun n => if n = "NoPL" then
            some ⟨"mod.np", ["NoPL", "object"], none, none, none, some "doc"⟩
          else none) "NoPL") "processing_logic" =
        PyVal.pyDict [("error", PyVal.pyStr "Processing logic not defined")] ∧
      processingLogicLines
        (get_metadata
          (fun n => if n = "NoPL" then
            some ⟨"mod.np", ["NoPL", "object"], none, none, none, some "doc"⟩
          else none) "NoPL") = [] ∧
      explain
        (fun n => if n = "NoPL" then
          some ⟨"mod.np", ["NoPL", "object"], none, none, none, some "doc"⟩
        else none) id [[("processor", PyVal.pyStr "NoPL")]] =
        id (generate_prompt [[("processor", PyVal.pyStr "NoPL")]]
          [get_metadata
            (fun n => if n = "NoPL" then
              some ⟨"mod.np", ["NoPL", "object"], none, none, none, some "doc"⟩
            else none) "NoPL"]) :=
  ⟨(processing_logic_error_nonfatal _ "NoPL" _ rfl rfl (by decide)).1,
   (processing_logic_error_nonfatal _ "NoPL" _ rfl rfl (by decide)).2.1,
   (processing_logic_error_nonfatal _ "NoPL" _ rfl rfl (by decide)).2.2.2 id⟩

/-- Claim C1 counterexample: a resolved component whose class docstring is
absent gives a record whose `docstring` key is present with value `None`,
and the composer renders the literal `"None"` for it — not the fallback
text, because `dict.get`'s default fires only on an absent key. -/
theorem null_docstring_renders_none :
    lookupVal
        (get_metadata
          (fun n => if n = "NoDoc" then
            some ⟨"mod.nd", ["NoDoc", "object"], none, none, none, none⟩
          else none) "NoDoc") "docstring" = some PyVal.pyNone ∧
      descriptionOf
        (get_metadata
          (fun n => if n = "NoDoc" then
            some ⟨"mod.nd", ["NoDoc", "object"], none, none, none, none⟩
          else none) "NoDoc") = "None" ∧
      ("None" : String) ≠ "No description available." :=
  ⟨rfl, rfl, by decide⟩

/-- Claim C1 (amended): the fallback `"No description available."` is
rendered when the `docstring` key is absent from the record; a key present
with a null value renders as the literal `"None"` — and extractor records
always carry the key, so a component with a null docstring renders
`"None"`.  `"Unknown"` is rendered when the `module_path` key is absent,
as claimed. -/
theorem docstring_fallback_on_absent_key :
    ∀ (comp : PyDict),
      (lookupVal comp "docstring" = none →
        descriptionOf comp = "No description available.") ∧
      (lookupVal comp "docstring" = some PyVal.pyNone →
        descriptionOf comp = "None") ∧
      (lookupVal comp "module_path" = none → moduleOf comp = "Unknown") ∧
      ∀ (registry : String → Option PyClass) (name : String) (c : PyClass),
        registry name = some c → c.doc = none →
        lookupVal (get_metadata registry name) "docstring" =
          some PyVal.pyNone := by
  intro comp
  refine ⟨?_, ?_, ?_, ?_⟩
  · intro h
    simp [descriptionOf, pyGetD, h, pyStrOf]
  · intro h
    simp [descriptionOf, pyGetD, h, pyStrOf, pyRepr]
  · intro h
    simp [moduleOf, pyGetD, h, pyStrOf]
  · intro registry name c hsome hdoc
    simp only [get_metadata, hsome, hdoc, optStrVal]
    rfl

/-- Claim C1 witness: the fallback on a record without the key, the
literal `"None"` on a record with a null value, and the module fallback. -/
theorem docstring_fallback_on_absent_key_witness :
    descriptionOf [("component_name", PyVal.pyStr "A")] =
        "No description available." ∧
      descriptionOf [("docstring", PyVal.pyNone)] = "None" ∧
      moduleOf [("component_name", PyVal.pyStr "A")] = "Unknown" :=
  ⟨(docstring_fallback_on_absent_key [("component_name", PyVal.pyStr "A")]).1 rfl,
   (docstring_fallback_on_absent_key [("docstring", PyVal.pyNone)]).2.1 rfl,
   (docstring_fallback_on_absent_key [("component_name", PyVal.pyStr "A")]).2.2.1 rfl⟩

/-- Claim C2: a step whose `parameters` value is present but neither a
mapping nor null is dropped from the rendered pipeline-structure section;
every other step is still rendered (with its original enumerate index),
and the composer still returns a string — the rendering of the remaining
steps. -/
theorem malformed_params_step_skipped :
    ∀ (pre : List PyDict) (bad : PyDict) (post : List PyDict),
      paramOk bad = false →
      renderedSteps (pre ++ bad :: post) =
          renderedSteps pre ++
            (List.enumFrom (pre.length + 1) post).filter (fun p => paramOk p.2) ∧
        (∀ i, (i, bad) ∉ renderedSteps (pre ++ bad :: post)) ∧
        pipelineStructure (pre ++ bad :: post) =
          String.intercalate "\n"
            ((renderedSteps pre ++
              (List.enumFrom (pre.length + 1) post).filter
                (fun p => paramOk p.2)).map fun p => stepBlock p.1 p.2) := by
  intro pre bad post hbad
  have h1 : renderedSteps (pre ++ bad :: post) =
      renderedSteps pre ++
        (List.enumFrom (pre.length + 1) post).filter (fun p => paramOk p.2) := by
    simp only [renderedSteps, List.enum]
    rw [enumFrom_append_eq]
    simp only [Nat.zero_add, List.enumFrom, List.filter_append, List.filter_cons,
      hbad]
    simp
  refine ⟨h1, ?_, ?_⟩
  · intro i hi
    have hmem := List.mem_filter.mp hi
    rw [hbad] at hmem
    exact absurd hmem.2 (by simp)
  · unfold pipelineStructure
    rw [h1]

/-- Claim C2 witness: the malformed middle step (string-valued
`parameters`) disappears while steps 1 and 3 survive with their original
indices. -/
theorem malformed_params_step_skipped_witness :
    renderedSteps [[("processor", PyVal.pyStr "A")],
        [("processor", PyVal.pyStr "B"), ("parameters", PyVal.pyStr "oops")],
        [("processor", PyVal.pyStr "C")]] =
      [(0, [("processor", PyVal.pyStr "A")]),
        (2, [("processor", PyVal.pyStr "C")])] := by
  have h := (malformed_params_step_skipped [[("processor", PyVal.pyStr "A")]]
    [("processor", PyVal.pyStr "B"), ("parameters", PyVal.pyStr "oops")]
    [[("processor", PyVal.pyStr "C")]] rfl).1
  simpa using h

/-- Claim C9: display indices are the 1-based positions in the original
input list, because `enumerate` runs before the malformed-step filter:
skipping the middle step of three leaves `Step 1` directly followed by
`Step 3`. -/
theorem step_indices_keep_gaps :
    ∀ (a bad b : PyDict),
      paramOk a = true → paramOk bad = false → paramOk b = true →
      pipelineStructure [a, bad, b] =
          stepBlock 0 a ++ "\n" ++ stepBlock 2 b ∧
        stepBlock 0 a = "- Step 1: " ++ stepTail a ∧
        stepBlock 2 b = "- Step 3: " ++ stepTail b := by
  intro a bad b ha hbad hb
  refine ⟨?_, rfl, rfl⟩
  have hr : renderedSteps [a, bad, b] = [(0, a), (2, b)] := by
    simp [renderedSteps, List.enum, List.enumFrom, List.filter_cons, ha, hbad, hb]
  unfold pipelineStructure
  rw [hr]
  rfl

/-- Claim C9 witness: a concrete three-step list whose middle step carries
non-mapping `parameters`. -/
theorem step_indices_keep_gaps_witness :
    pipelineStructure [[("processor", PyVal.pyStr "A")],
        [("processor", PyVal.pyStr "B"), ("parameters", PyVal.pyInt 0)],
        [("processor", PyVal.pyStr "C")]] =
        stepBlock 0 [("processor", PyVal.pyStr "A")] ++ "\n" ++
          stepBlock 2 [("processor", PyVal.pyStr "C")] ∧
      stepBlock 2 [("processor", PyVal.pyStr "C")] =
        "- Step 3: " ++ stepTail [("processor", PyVal.pyStr "C")] :=
  ⟨(step_indices_keep_gaps [("processor", PyVal.pyStr "A")]
      [("processor", PyVal.pyStr "B"), ("parameters", PyVal.pyInt 0)]
      [("processor", PyVal.pyStr "C")] rfl rfl rfl).1,
   (step_indices_keep_gaps [("processor", PyVal.pyStr "A")]
      [("processor", PyVal.pyStr "B"), ("parameters", PyVal.pyInt 0)]
      [("processor", PyVal.pyStr "C")] rfl rfl rfl).2.2⟩

/-- Claim C8 counterexample: `"OPENAI"` is a provider name other than
`"openai"` and `"mock"`, yet construction succeeds (the factory lowercases
the name first), refuting the claim as stated. -/
theorem provider_uppercase_accepted :
    ("OPENAI" ≠ "openai" ∧ "OPENAI" ≠ "mock") ∧
      get_llm "OPENAI" none none =
        Except.ok (LLMInstance.openaiLLM none "gpt-4o-mini") :=
  ⟨⟨by decide, by decide⟩, rfl⟩

/-- Claim C8 (amended): a provider name whose lowercase form is neither
`"openai"` nor `"mock"` makes construction fail immediately with the
`ValueError` configuration message, while any name lowercasing to
`"openai"` or `"mock"` yields the corresponding provider instance (both
model classes implementing the `LLMInterface` text-completion surface). -/
theorem provider_selection_case_insensitive :
    ∀ (provider : String) (api_key model : Option String),
      (pyLower provider ≠ "openai" → pyLower provider ≠ "mock" →
        get_llm provider api_key model =
          Except.error
            ("Unsupported LLM provider: \x27" ++ pyLower provider ++
              "\x27. Choose \x27openai\x27 or \x27mock\x27.")) ∧
      (pyLower provider = "openai" →
        get_llm provider api_key model =
          Except.ok (LLMInstance.openaiLLM api_key (pyOrStr model "gpt-4o-mini"))) ∧
      (pyLower provider = "mock" →
        get_llm provider api_key model =
          Except.ok (LLMInstance.mockLLM api_key (pyOrStr model "mock"))) := by
  intro p k m
  refine ⟨?_, ?_, ?_⟩
  · intro h1 h2
    simp [get_llm, h1, h2]
  · intro h
    simp [get_llm, h]
  · intro h
    simp [get_llm, h]

/-- Claim C8 witness: an unknown provider fails, while differently-cased
known providers succeed (the empty model string also falls back to the
default, as Python `or` treats it as falsy). -/
theorem provider_selection_case_insensitive_witness :
    get_llm "deepseek" none none =
        Except.error
          ("Unsupported LLM provider: \x27" ++ pyLower "deepseek" ++
            "\x27. Choose \x27openai\x27 or \x27mock\x27.") ∧
      get_llm "OpenAI" (some "k") none =
        Except.ok (LLMInstance.openaiLLM (some "k") (pyOrStr none "gpt-4o-mini")) ∧
      get_llm "MOCK" none (some "") =
        Except.ok (LLMInstance.mockLLM none (pyOrStr (some "") "mock")) :=
  ⟨(provider_selection_case_insensitive "deepseek" none none).1
      (by decide) (by decide),
   (provider_selection_case_insensitive "OpenAI" (some "k") none).2.1 (by decide),
   (provider_selection_case_insensitive "MOCK" none (some "")).2.2 (by decide)⟩
